import Mathlib

/-!
Verification of the scoring/ranking engine and red-flag detector of a
rule-based symptom checker.  The engine is embedded shallowly: the two
static tables (`master_symptoms`, `conditions_kb`) and the red-flag rule
list (`RED_FLAGS`) are transcribed verbatim, weights become exact
rationals, and the three engine operations (`score_conditions`,
`detect_red_flags`, `explain_top`) follow the source line by line.
Answer mappings read absent keys as `false`, so they are embedded as
total boolean-valued functions on symptom ids.  The source's `sorted`
call is a stable descending sort, embedded as `List.insertionSort` with
the reverse percentage order (insertion sort is stable, as is the
source's sort).  The condition-profile lookup inside the ranker can fail
on an unknown condition name (a `KeyError` in the source), so the ranker
returns an `Option`.
-/

namespace Diagnosis

abbrev SymptomId := String

/-- A symptom answer mapping; a key absent from the source's dict reads
as `false`, so the embedding is a total function. -/
abbrev SymptomAnswers := SymptomId → Bool

structure ConditionProfile where
  weights : List (SymptomId × ℚ)
  advice : String
  severity : String
deriving DecidableEq, Repr

/-- The symptom catalog: id and question text. -/
def master_symptoms : List (SymptomId × String) :=
  [ ("fever", "Do you have a fever?"),
    ("high_fever", "Is the temperature very high (>=38.5 C / 101.3 F)?"),
    ("chills", "Are you experiencing chills?"),
    ("cough", "Do you have a cough?"),
    ("dry_cough", "Is the cough dry?"),
    ("sore_throat", "Do you have a sore or scratchy throat?"),
    ("runny_nose", "Do you have a runny nose?"),
    ("sneezing", "Are you sneezing?"),
    ("headache", "Do you have a headache?"),
    ("migraine_aura", "Do you experience visual sensitivity or aura with headache?"),
    ("body_ache", "Do you have body aches or muscle pain?"),
    ("fatigue", "Are you unusually tired or fatigued?"),
    ("short_breath", "Are you experiencing shortness of breath?"),
    ("chest_pain", "Do you have chest pain?"),
    ("wheezing", "Do you hear wheezing sounds when breathing?"),
    ("diarrhea", "Are you having diarrhea?"),
    ("vomiting", "Are you vomiting?"),
    ("nausea", "Do you feel nauseous?"),
    ("abdominal_pain", "Do you have abdominal pain?"),
    ("loss_smell", "Has your sense of smell or taste decreased?"),
    ("rash", "Do you have a skin rash or hives?"),
    ("eye_pain", "Are you experiencing eye pain or blurred vision?"),
    ("joint_pain", "Do you have joint pain?"),
    ("dehydration_signs", "Do you have dry mouth or reduced urination (signs of dehydration)?"),
    ("urinate_often", "Are you urinating more frequently?"),
    ("excess_thirst", "Do you feel excessive thirst?"),
    ("weight_loss", "Have you experienced unexplained weight loss?"),
    ("blood_in_stool", "Is there blood or dark color in stool?"),
    ("recent_travel", "Have you recently traveled to an area with outbreaks?"),
    ("mosquito_bite", "Have you had many mosquito bites recently?"),
    ("neck_stiff", "Is your neck stiff?"),
    ("photophobia", "Are you sensitive to bright light?"),
    ("age_over_60", "Are you over 60 years old?"),
    ("chronic_condition", "Do you have chronic conditions (diabetes/heart/kidney/asthma)?") ]

/-- The condition knowledge base, in the source's insertion order. -/
def conditions_kb : List (String × ConditionProfile) :=
  [ ("Common Cold",
     { weights := [("runny_nose", 2), ("sneezing", 2), ("sore_throat", 1.5),
                   ("cough", 1.5), ("fever", 0.5), ("headache", 0.5), ("body_ache", 0.5)],
       advice := "Rest, warm fluids, saltwater gargles. See a doctor if not improving in 3-5 days.",
       severity := "low" }),
    ("Influenza (Flu)",
     { weights := [("fever", 2.5), ("high_fever", 2), ("chills", 1.5), ("dry_cough", 2),
                   ("body_ache", 1.5), ("fatigue", 1.5), ("headache", 1.0)],
       advice := "Rest and fluids. Seek care for high fever or breathing difficulty.",
       severity := "medium" }),
    ("Migraine",
     { weights := [("headache", 3), ("migraine_aura", 2), ("photophobia", 1.5), ("nausea", 1.0)],
       advice := "Rest in a quiet/dark room and hydrate. See specialist if recurrent.",
       severity := "low" }),
    ("Suspected Dengue",
     { weights := [("fever", 2.5), ("high_fever", 2), ("rash", 1.5), ("eye_pain", 1.5),
                   ("joint_pain", 1.5), ("body_ache", 1.0), ("recent_travel", 0.5),
                   ("mosquito_bite", 1.5)],
       advice := "Get tested for dengue. Stay hydrated; avoid NSAIDs (use paracetamol).",
       severity := "high" }),
    ("Typhoid (Suspected)",
     { weights := [("fever", 2), ("high_fever", 1.5), ("abdominal_pain", 1.5), ("diarrhea", 1.0),
                   ("headache", 1.0), ("fatigue", 1.0), ("recent_travel", 0.5)],
       advice := "Persistent fever warrants medical testing. Drink clean water and eat light food.",
       severity := "medium" }),
    ("COVID-19-like",
     { weights := [("fever", 2), ("dry_cough", 2), ("loss_smell", 2), ("short_breath", 2),
                   ("fatigue", 1), ("sore_throat", 1), ("headache", 0.5)],
       advice := "Consider isolation and wearing a mask. Seek care for breathing difficulty.",
       severity := "high" }),
    ("Asthma Exacerbation",
     { weights := [("short_breath", 3), ("wheezing", 2), ("cough", 1.5), ("chest_pain", 1.0)],
       advice := "Use inhaler as prescribed. Seek emergency care if breathing worsens.",
       severity := "high" }),
    ("Gastroenteritis",
     { weights := [("diarrhea", 2.5), ("vomiting", 2), ("nausea", 1.5), ("abdominal_pain", 1.5),
                   ("dehydration_signs", 2)],
       advice := "ORS/fluids and light food. Seek care for dehydration.",
       severity := "medium" }),
    ("Dehydration",
     { weights := [("dehydration_signs", 3), ("diarrhea", 1.0), ("vomiting", 1.0), ("fever", 0.5)],
       advice := "Drink ORS/fluids. Emergency care if very dizzy or urine is minimal.",
       severity := "medium" }),
    ("Food Poisoning",
     { weights := [("vomiting", 2.5), ("nausea", 2), ("diarrhea", 1.5), ("abdominal_pain", 1.5),
                   ("fever", 0.5)],
       advice := "Hydrate and rest. Seek help for severe symptoms or blood in stool.",
       severity := "medium" }),
    ("Possible Uncontrolled Diabetes",
     { weights := [("excess_thirst", 2.5), ("urinate_often", 2), ("fatigue", 1.5),
                   ("weight_loss", 1.5), ("dehydration_signs", 1.0)],
       advice := "Check blood sugar and consult a doctor.",
       severity := "medium" }),
    ("IBS/IBD-like",
     { weights := [("abdominal_pain", 2), ("diarrhea", 1.5), ("blood_in_stool", 2.5),
                   ("weight_loss", 1.0), ("fatigue", 1.0)],
       advice := "See a gastroenterologist if blood in stool or weight loss.",
       severity := "high" }),
    ("Sinusitis",
     { weights := [("headache", 1.5), ("runny_nose", 1.5), ("sore_throat", 0.5), ("fever", 0.5),
                   ("sneezing", 0.5)],
       advice := "Steam inhalation, saline nasal spray; see ENT if persistent.",
       severity := "low" }),
    ("Meningitis (Red Flag)",
     { weights := [("high_fever", 2.5), ("neck_stiff", 3), ("photophobia", 2), ("headache", 2),
                   ("vomiting", 1.0)],
       advice := "Neck stiffness with high fever and light sensitivity: go to ER immediately.",
       severity := "critical" }),
    ("Cardiac-related (Chest Pain)",
     { weights := [("chest_pain", 3), ("short_breath", 2.5), ("age_over_60", 1.0),
                   ("fatigue", 0.5)],
       advice := "Chest pain or severe shortness of breath: seek emergency care immediately.",
       severity := "critical" }) ]

/-- The red-flag combination rules, in the source's sequence order.  Each
rule is a set of symptom ids; nothing in the engine depends on the order
of the ids inside one rule, so a rule is embedded as the list of its ids
in the source's literal order. -/
def RED_FLAGS : List (List SymptomId) :=
  [ ["high_fever", "short_breath"],
    ["chest_pain", "short_breath"],
    ["neck_stiff", "high_fever"],
    ["dehydration_signs", "vomiting", "diarrhea"] ]

/-- The per-condition accumulation loop of `score_conditions`: fold over
the weight table, accumulating the matched weight `s` (weights of
symptoms answered true) and the maximum possible weight `m` (sum of
`max w 0`). -/
def condSums (sym_answers : SymptomAnswers) (weights : List (SymptomId × ℚ)) : ℚ × ℚ :=
  weights.foldl
    (fun sm p => (if sym_answers p.1 then sm.1 + p.2 else sm.1, sm.2 + max p.2 0))
    (0, 0)

/-- The per-condition percentage of `score_conditions`:
`(s / (m if m > 0 else 1)) * 100`. -/
def score_one (sym_answers : SymptomAnswers) (weights : List (SymptomId × ℚ)) : ℚ :=
  let sm := condSums sym_answers weights
  (sm.1 / (if 0 < sm.2 then sm.2 else 1)) * 100

/-- `score_conditions`: the percentage mapping over the whole knowledge
base, one entry per condition, in knowledge-base order. -/
def score_conditions (sym_answers : SymptomAnswers) : List (String × ℚ) :=
  conditions_kb.map fun nd => (nd.1, score_one sym_answers nd.2.weights)

/-- `detect_red_flags`: iterate the rule sequence, appending each rule
whose symptoms are all answered true. -/
def detect_red_flags (sym_answers : SymptomAnswers) : List (List SymptomId) :=
  RED_FLAGS.foldl
    (fun triggers combo =>
      if combo.all (fun c => sym_answers c) then triggers ++ [combo] else triggers)
    []

/-- The comparison used by the ranker: descending by percentage.  The
source sorts with `key = percentage, reverse = True`, a stable
descending sort. -/
def descPerc (a b : String × ℚ) : Prop := b.2 ≤ a.2

instance : DecidableRel descPerc := fun a b => inferInstanceAs (Decidable (b.2 ≤ a.2))

instance : IsTotal (String × ℚ) descPerc := ⟨fun a b => le_total b.2 a.2⟩

instance : IsTrans (String × ℚ) descPerc := ⟨fun _ _ _ hab hbc => le_trans hbc hab⟩

/-- The `ranked` list of `explain_top` before truncation: the percentage
mapping stably sorted by descending percentage. -/
def ranked_pairs (perc_scores : List (String × ℚ)) : List (String × ℚ) :=
  List.insertionSort descPerc perc_scores

/-- Python list slicing `xs[:k]`: a nonnegative bound takes the first
`k` elements (clamped to the length), a negative bound takes all but the
last `-k` elements (clamped to zero). -/
def listSlice (xs : List α) (k : Int) : List α :=
  if 0 ≤ k then xs.take k.toNat else xs.take ((xs.length : Int) + k).toNat

/-- `explain_top`: sort descending, truncate to `top_n`, and attach each
condition's severity and advice from the knowledge base.  The lookup
`kb[name]` raises on an unknown name in the source, hence the `Option`. -/
def explain_top (perc_scores : List (String × ℚ)) (top_n : Int) :
    Option (List (String × ℚ × String × String)) :=
  (listSlice (ranked_pairs perc_scores) top_n).mapM fun np =>
    (conditions_kb.lookup np.1).map fun d => (np.1, np.2, d.severity, d.advice)

/-- Spec-side: the matched weight of a profile, `Σ weight[s]` over the
symptoms `s` of the profile answered true. -/
def matchedWeight (answers : SymptomAnswers) (weights : List (SymptomId × ℚ)) : ℚ :=
  (weights.map fun p => if answers p.1 then p.2 else 0).sum

/-- Spec-side: the maximum possible weight of a profile,
`Σ max(weight[s], 0)` over the profile. -/
def possibleWeight (weights : List (SymptomId × ℚ)) : ℚ :=
  (weights.map fun p => max p.2 0).sum

/-- Spec-side: the percentage formula as the specification words it:
matched weight over possible weight (the denominator replaced by 1 when
it is zero), times 100. -/
def specPercentage (answers : SymptomAnswers) (weights : List (SymptomId × ℚ)) : ℚ :=
  matchedWeight answers weights /
    (if possibleWeight weights = 0 then 1 else possibleWeight weights) * 100

lemma condSums_foldl (answers : SymptomAnswers) :
    ∀ (ws : List (SymptomId × ℚ)) (s0 m0 : ℚ),
      ws.foldl
        (fun sm p => (if answers p.1 then sm.1 + p.2 else sm.1, sm.2 + max p.2 0))
        (s0, m0)
      = (s0 + matchedWeight answers ws, m0 + possibleWeight ws)
  | [], s0, m0 => by simp [matchedWeight, possibleWeight]
  | p :: ws, s0, m0 => by
    simp only [List.foldl_cons]
    rw [condSums_foldl answers ws]
    by_cases h : answers p.1 <;>
      simp [h, matchedWeight, possibleWeight, Prod.ext_iff, add_assoc]

lemma condSums_eq (answers : SymptomAnswers) (ws : List (SymptomId × ℚ)) :
    condSums answers ws = (matchedWeight answers ws, possibleWeight ws) := by
  have h := condSums_foldl answers ws 0 0
  simpa [condSums] using h

lemma possibleWeight_nonneg (ws : List (SymptomId × ℚ)) : 0 ≤ possibleWeight ws := by
  apply List.sum_nonneg
  intro x hx
  obtain ⟨p, _, rfl⟩ := List.mem_map.mp hx
  exact le_max_right _ _

lemma matchedWeight_le_possibleWeight (answers : SymptomAnswers)
    (ws : List (SymptomId × ℚ)) : matchedWeight answers ws ≤ possibleWeight ws := by
  apply List.sum_le_sum
  intro p _
  by_cases h : answers p.1 <;> simp [h, le_max_left, le_max_right]

lemma matchedWeight_nonneg (answers : SymptomAnswers) {ws : List (SymptomId × ℚ)}
    (hw : ∀ p ∈ ws, 0 ≤ p.2) : 0 ≤ matchedWeight answers ws := by
  apply List.sum_nonneg
  intro x hx
  obtain ⟨p, hp, rfl⟩ := List.mem_map.mp hx
  by_cases h : answers p.1 <;> simp [h]
  exact hw p hp

lemma matchedWeight_mono {A B : SymptomAnswers} (hAB : ∀ s, A s = true → B s = true)
    {ws : List (SymptomId × ℚ)} (hw : ∀ p ∈ ws, 0 ≤ p.2) :
    matchedWeight A ws ≤ matchedWeight B ws := by
  apply List.sum_le_sum
  intro p hp
  by_cases hA : A p.1
  · simp [hA, hAB p.1 hA]
  · by_cases hB : B p.1 <;> simp [hA, hB]
    exact hw p hp

/-- Bridging lemma: the per-condition loop of the source computes the
specification's percentage formula. -/
lemma score_one_eq_spec (answers : SymptomAnswers) (ws : List (SymptomId × ℚ)) :
    score_one answers ws = specPercentage answers ws := by
  unfold score_one specPercentage
  rw [condSums_eq]
  rcases eq_or_lt_of_le (possibleWeight_nonneg ws) with h | h
  · simp [← h]
  · simp [h, h.ne']

lemma denom_pos (m : ℚ) : 0 < if 0 < m then m else 1 := by
  by_cases h : 0 < m <;> simp [h]

lemma score_one_nonneg (answers : SymptomAnswers) {ws : List (SymptomId × ℚ)}
    (hw : ∀ p ∈ ws, 0 ≤ p.2) : 0 ≤ score_one answers ws := by
  unfold score_one
  rw [condSums_eq]
  have hd := denom_pos (possibleWeight ws)
  exact mul_nonneg (div_nonneg (matchedWeight_nonneg answers hw) hd.le) (by norm_num)

lemma score_one_le_100 (answers : SymptomAnswers) {ws : List (SymptomId × ℚ)}
    (hw : ∀ p ∈ ws, 0 ≤ p.2) : score_one answers ws ≤ 100 := by
  unfold score_one
  simp only [condSums_eq]
  by_cases h : 0 < possibleWeight ws
  · rw [if_pos h]
    calc matchedWeight answers ws / possibleWeight ws * 100
        ≤ 1 * 100 := by
          apply mul_le_mul_of_nonneg_right _ (by norm_num)
          exact (div_le_one h).mpr (matchedWeight_le_possibleWeight answers ws)
      _ = 100 := one_mul 100
  · have hm : possibleWeight ws = 0 :=
      le_antisymm (not_lt.mp h) (possibleWeight_nonneg ws)
    have hs : matchedWeight answers ws = 0 :=
      le_antisymm (hm ▸ matchedWeight_le_possibleWeight answers ws)
        (matchedWeight_nonneg answers hw)
    rw [if_neg h, hs]
    norm_num

lemma score_one_mono {A B : SymptomAnswers} (hAB : ∀ s, A s = true → B s = true)
    {ws : List (SymptomId × ℚ)} (hw : ∀ p ∈ ws, 0 ≤ p.2) :
    score_one A ws ≤ score_one B ws := by
  unfold score_one
  simp only [condSums_eq]
  have hd := denom_pos (possibleWeight ws)
  exact mul_le_mul_of_nonneg_right
    ((div_le_div_iff_of_pos_right hd).mpr (matchedWeight_mono hAB hw)) (by norm_num)

/-- Every weight of every condition profile in the knowledge base is
nonnegative (they are in fact all positive). -/
lemma kb_weights_nonneg : ∀ nd ∈ conditions_kb, ∀ p ∈ nd.2.weights, 0 ≤ p.2 := by
  with_unfolding_all decide

lemma foldl_append_filter (p : α → Bool) :
    ∀ (l acc : List α),
      l.foldl (fun acc x => if p x then acc ++ [x] else acc) acc = acc ++ l.filter p
  | [], acc => by simp
  | x :: l, acc => by
    by_cases h : p x <;>
      simp [List.foldl_cons, h, foldl_append_filter p l, List.filter_cons]

lemma mapM_eq_map_of_some {f : α → Option β} {g : α → β} :
    ∀ {l : List α}, (∀ x ∈ l, f x = some (g x)) → l.mapM f = some (l.map g)
  | [], _ => by rw [List.mapM_nil]; rfl
  | x :: l, h => by
    have hx := h x (List.mem_cons_self x l)
    have hl := mapM_eq_map_of_some fun y hy => h y (List.mem_cons_of_mem x hy)
    rw [List.mapM_cons, hx, hl]
    rfl

lemma lookup_isSome_of_mem_keys {β : Type} :
    ∀ {l : List (String × β)} {a : String},
      a ∈ l.map Prod.fst → ∃ b, l.lookup a = some b
  | [], a, h => by simp at h
  | (k, v) :: l, a, h => by
    by_cases hk : a == k
    · exact ⟨v, by simp [List.lookup_cons, hk]⟩
    · have hmem : a ∈ l.map Prod.fst := by
        rcases (by simpa using h : a = k ∨ a ∈ l.map Prod.fst) with rfl | h1
        · simp at hk
        · exact h1
      obtain ⟨b, hb⟩ := lookup_isSome_of_mem_keys hmem
      exact ⟨b, by simp [List.lookup_cons, hk, hb]⟩

lemma listSlice_sublist (xs : List α) (k : Int) : List.Sublist (listSlice xs k) xs := by
  unfold listSlice
  by_cases h : 0 ≤ k <;> simp [h, List.take_sublist]

lemma forall₂_map_map {α β γ : Type} {R : β → γ → Prop} (f : α → β) (g : α → γ) :
    ∀ {l : List α}, (∀ x ∈ l, R (f x) (g x)) → List.Forall₂ R (l.map f) (l.map g)
  | [], _ => List.Forall₂.nil
  | x :: l, h => by
    simp only [List.map_cons]
    exact List.Forall₂.cons (h x (List.mem_cons_self x l))
      (forall₂_map_map f g fun y hy => h y (List.mem_cons_of_mem x hy))

lemma score_conditions_keys (answers : SymptomAnswers) :
    (score_conditions answers).map Prod.fst = conditions_kb.map Prod.fst := by
  simp [score_conditions, List.map_map, Function.comp]

lemma score_conditions_keys_mem (answers : SymptomAnswers) :
    ∀ p ∈ score_conditions answers, p.1 ∈ conditions_kb.map Prod.fst := by
  intro p hp
  obtain ⟨nd, hnd, rfl⟩ := List.mem_map.mp hp
  exact List.mem_map_of_mem Prod.fst hnd

/-- The attachment step of the ranker, as a total function: on a name
present in the knowledge base it produces exactly the entry of
`explain_top`, and that is the only case the engine reaches. -/
def attachInfo (np : String × ℚ) : String × ℚ × String × String :=
  match conditions_kb.lookup np.1 with
  | some d => (np.1, np.2, d.severity, d.advice)
  | none => (np.1, np.2, "", "")

lemma attachInfo_proj (np : String × ℚ) :
    ((attachInfo np).1, (attachInfo np).2.1) = np := by
  rcases h : conditions_kb.lookup np.1 with _ | d <;> simp [attachInfo, h]

lemma attachInfo_pct (np : String × ℚ) : (attachInfo np).2.1 = np.2 := by
  rcases h : conditions_kb.lookup np.1 with _ | d <;> simp [attachInfo, h]

lemma attachInfo_eq_of_lookup {np : String × ℚ} {d : ConditionProfile}
    (hd : conditions_kb.lookup np.1 = some d) :
    attachInfo np = (np.1, np.2, d.severity, d.advice) := by
  simp [attachInfo, hd]

lemma attach_step_some_of_mem_keys {np : String × ℚ}
    (h : np.1 ∈ conditions_kb.map Prod.fst) :
    ((conditions_kb.lookup np.1).map fun d => (np.1, np.2, d.severity, d.advice))
      = some (attachInfo np) := by
  obtain ⟨d, hd⟩ := lookup_isSome_of_mem_keys h
  simp [attachInfo_eq_of_lookup hd, hd]

lemma explain_top_eq_of_keys {perc : List (String × ℚ)} {topN : Int}
    (h : ∀ p ∈ perc, p.1 ∈ conditions_kb.map Prod.fst) :
    explain_top perc topN
      = some ((listSlice (ranked_pairs perc) topN).map attachInfo) := by
  unfold explain_top
  apply mapM_eq_map_of_some
  intro np hnp
  apply attach_step_some_of_mem_keys
  apply h
  have h1 : np ∈ ranked_pairs perc :=
    (listSlice_sublist (ranked_pairs perc) topN).mem hnp
  exact (List.perm_insertionSort descPerc perc).mem_iff.mp h1

/-- The answer mapping of the COVID-versus-cold test vector: fever,
dry cough, loss of smell, shortness of breath and fatigue are true,
everything else false. -/
def answersCovid : SymptomAnswers := fun s =>
  ["fever", "dry_cough", "loss_smell", "short_breath", "fatigue"].contains s

/-- The answer mapping of the red-flag test vector: high fever and
shortness of breath true, everything else false or absent. -/
def answersRedFlag : SymptomAnswers := fun s =>
  s == "high_fever" || s == "short_breath"

/-- C1: for every answers mapping, `score_conditions` returns one entry
per knowledge-base condition, keyed exactly by the condition names in
knowledge-base order (zero-scoring conditions included), and the value
of each condition is its matched weight divided by its total positive
weight (replaced by 1 when that total is zero), times 100. -/
theorem score_conditions_formula (answers : SymptomAnswers) :
    (score_conditions answers).map Prod.fst = conditions_kb.map Prod.fst ∧
    score_conditions answers
      = conditions_kb.map fun nd => (nd.1, specPercentage answers nd.2.weights) := by
  constructor
  · exact score_conditions_keys answers
  · unfold score_conditions
    have h : (fun nd : String × ConditionProfile =>
        (nd.1, score_one answers nd.2.weights))
        = fun nd => (nd.1, specPercentage answers nd.2.weights) :=
      funext fun nd => by rw [score_one_eq_spec]
    rw [h]

/-- C2: every percentage produced by `score_conditions` lies between 0
and 100, for every answers mapping and every condition of the knowledge
base. -/
theorem score_conditions_in_range (answers : SymptomAnswers) :
    ∀ p ∈ score_conditions answers, 0 ≤ p.2 ∧ p.2 ≤ 100 := by
  intro p hp
  obtain ⟨nd, hnd, rfl⟩ := List.mem_map.mp hp
  exact ⟨score_one_nonneg answers (kb_weights_nonneg nd hnd),
         score_one_le_100 answers (kb_weights_nonneg nd hnd)⟩

set_option maxRecDepth 4000 in
/-- Witness for C2: the Common Cold entry of the COVID test vector
scores 100/17 percent, which is between 0 and 100. -/
theorem score_conditions_in_range_witness :
    0 ≤ (("Common Cold", (100 / 17 : ℚ)) : String × ℚ).2 ∧
    (("Common Cold", (100 / 17 : ℚ)) : String × ℚ).2 ≤ 100 :=
  score_conditions_in_range answersCovid ("Common Cold", (100 / 17 : ℚ))
    (by with_unfolding_all decide)

set_option maxRecDepth 4000 in
/-- C3: `detect_red_flags` returns exactly the rules all of whose
symptoms are answered true, in the fixed rule order; on the test vector
with only high fever and shortness of breath true it returns precisely
the rule `[high_fever, short_breath]` (so in particular the rule
`[neck_stiff, high_fever]` is not among the triggers). -/
theorem detect_red_flags_spec :
    (∀ answers : SymptomAnswers,
      detect_red_flags answers
        = RED_FLAGS.filter fun combo => combo.all fun c => answers c) ∧
    detect_red_flags answersRedFlag = [["high_fever", "short_breath"]] := by
  constructor
  · intro answers
    unfold detect_red_flags
    simpa using foldl_append_filter (fun combo => combo.all fun c => answers c) RED_FLAGS []
  · with_unfolding_all decide

/-- C5: scoring is monotone in the answers: turning more symptoms to
true never lowers any condition's percentage, condition by condition. -/
theorem score_conditions_monotone (A B : SymptomAnswers)
    (hAB : ∀ s, A s = true → B s = true) :
    List.Forall₂ (fun pa pb => pa.1 = pb.1 ∧ pa.2 ≤ pb.2)
      (score_conditions A) (score_conditions B) := by
  unfold score_conditions
  apply forall₂_map_map
  intro nd hnd
  exact ⟨rfl, score_one_mono hAB (kb_weights_nonneg nd hnd)⟩

/-- Witness for C5: the all-false mapping is below the mapping with only
fever true, so the scores are pointwise ordered. -/
theorem score_conditions_monotone_witness :
    List.Forall₂ (fun pa pb => pa.1 = pb.1 ∧ pa.2 ≤ pb.2)
      (score_conditions fun _ => false)
      (score_conditions fun s => s == "fever") :=
  score_conditions_monotone (fun _ => false) (fun s => s == "fever")
    (fun _ h => Bool.noConfusion h)

set_option maxRecDepth 4000 in
/-- C7: on the COVID test vector the COVID-19-like condition scores
600/7 percent and Common Cold scores 100/17 percent, so COVID-19-like
scores strictly higher. -/
theorem covid_scores_above_cold :
    ∃ qCovid qCold : ℚ,
      (score_conditions answersCovid).lookup "COVID-19-like" = some qCovid ∧
      (score_conditions answersCovid).lookup "Common Cold" = some qCold ∧
      qCold < qCovid :=
  ⟨600 / 7, 100 / 17, by with_unfolding_all decide, by with_unfolding_all decide,
    by norm_num⟩

set_option maxRecDepth 8000 in
/-- C8: every symptom id used as a weight key of a condition profile or
as a member of a red-flag rule is an id of the symptom catalog. -/
theorem kb_referential_integrity :
    (∀ nd ∈ conditions_kb, ∀ p ∈ nd.2.weights,
      p.1 ∈ master_symptoms.map Prod.fst) ∧
    (∀ combo ∈ RED_FLAGS, ∀ c ∈ combo, c ∈ master_symptoms.map Prod.fst) := by
  with_unfolding_all decide

set_option maxRecDepth 4000 in
/-- Witness for C8: the red-flag symptom `high_fever` is in the catalog. -/
theorem kb_referential_integrity_witness :
    "high_fever" ∈ master_symptoms.map Prod.fst :=
  kb_referential_integrity.2 ["high_fever", "short_breath"]
    (by with_unfolding_all decide) "high_fever" (by with_unfolding_all decide)

lemma listSlice_of_nonneg {xs : List α} {k : Int} (h : 0 ≤ k) :
    listSlice xs k = xs.take k.toNat := by
  simp [listSlice, h]

lemma listSlice_of_neg {xs : List α} {k : Int} (h : k < 0) :
    listSlice xs k = xs.take ((xs.length : Int) + k).toNat := by
  simp [listSlice, not_le.mpr h]

lemma attachInfo_fst (np : String × ℚ) : (attachInfo np).1 = np.1 := by
  rcases h : conditions_kb.lookup np.1 with _ | d <;> simp [attachInfo, h]

lemma ranked_pairs_length (perc : List (String × ℚ)) :
    (ranked_pairs perc).length = perc.length := by
  simp [ranked_pairs, List.length_insertionSort]

/-- C4: for every answers mapping and every nonnegative `topN`,
`explain_top` succeeds and returns the descending-sorted percentage
pairs truncated to `topN` entries (all of them when `topN` exceeds the
number of conditions), each carrying the severity and advice of its
condition profile verbatim; the percentages are non-increasing. -/
theorem explain_top_ranking (answers : SymptomAnswers) (topN : Int) (h : 0 ≤ topN) :
    ∃ blocks,
      explain_top (score_conditions answers) topN = some blocks ∧
      blocks.map (fun b => (b.1, b.2.1))
        = listSlice (ranked_pairs (score_conditions answers)) topN ∧
      blocks.length = min topN.toNat conditions_kb.length ∧
      List.Pairwise (fun a b => b.2.1 ≤ a.2.1) blocks ∧
      ∀ b ∈ blocks, ∃ d, conditions_kb.lookup b.1 = some d ∧
        b.2.2.1 = d.severity ∧ b.2.2.2 = d.advice := by
  have hkeys := score_conditions_keys_mem answers
  refine ⟨_, explain_top_eq_of_keys hkeys, ?_, ?_, ?_, ?_⟩
  · rw [List.map_map]
    have hcomp : ((fun b : String × ℚ × String × String => (b.1, b.2.1)) ∘ attachInfo)
        = id := funext attachInfo_proj
    rw [hcomp, List.map_id]
  · rw [List.length_map, listSlice_of_nonneg h, List.length_take,
      ranked_pairs_length, score_conditions, List.length_map]
  · rw [List.pairwise_map]
    have hsorted : (ranked_pairs (score_conditions answers)).Pairwise descPerc :=
      List.sorted_insertionSort descPerc (score_conditions answers)
    have hslice := List.Pairwise.sublist
      (listSlice_sublist (ranked_pairs (score_conditions answers)) topN) hsorted
    exact hslice.imp fun hab => by
      rw [attachInfo_pct, attachInfo_pct]; exact hab
  · intro b hb
    obtain ⟨np, hnp, rfl⟩ := List.mem_map.mp hb
    have hmem : np ∈ ranked_pairs (score_conditions answers) :=
      (listSlice_sublist _ _).mem hnp
    have hk : np.1 ∈ conditions_kb.map Prod.fst :=
      hkeys np ((List.perm_insertionSort descPerc _).mem_iff.mp hmem)
    obtain ⟨d, hd⟩ := lookup_isSome_of_mem_keys hk
    refine ⟨d, ?_, ?_, ?_⟩ <;> simp [attachInfo_eq_of_lookup hd, hd]

/-- Witness for C4: with all-false answers and `topN = 3` over the
15-condition knowledge base, the ranking has exactly 3 entries. -/
theorem explain_top_ranking_witness :
    ∃ blocks,
      explain_top (score_conditions fun _ => false) 3 = some blocks ∧
      blocks.map (fun b => (b.1, b.2.1))
        = listSlice (ranked_pairs (score_conditions fun _ => false)) 3 ∧
      blocks.length = min (Int.toNat 3) conditions_kb.length ∧
      List.Pairwise (fun a b => b.2.1 ≤ a.2.1) blocks ∧
      ∀ b ∈ blocks, ∃ d, conditions_kb.lookup b.1 = some d ∧
        b.2.2.1 = d.severity ∧ b.2.2.2 = d.advice :=
  explain_top_ranking (fun _ => false) 3 (by decide)

/-- C6: the scoring of a condition profile never performs a division by
zero: the denominator is the total possible weight when that is
positive and is floored to 1 when the total is zero; consequently, for
a profile whose weights are nonnegative (every profile of the data
model, in particular every knowledge-base profile) a zero total
possible weight yields a percentage of 0 by convention rather than a
fault. -/
theorem score_never_division_fault (answers : SymptomAnswers)
    (ws : List (SymptomId × ℚ)) :
    (∃ d : ℚ, 0 < d ∧
      score_one answers ws = matchedWeight answers ws / d * 100 ∧
      (0 < possibleWeight ws → d = possibleWeight ws) ∧
      (possibleWeight ws = 0 → d = 1)) ∧
    ((∀ p ∈ ws, 0 ≤ p.2) → possibleWeight ws = 0 → score_one answers ws = 0) := by
  constructor
  · refine ⟨if 0 < possibleWeight ws then possibleWeight ws else 1,
      denom_pos _, ?_, ?_, ?_⟩
    · unfold score_one
      simp only [condSums_eq]
    · intro h0
      simp [h0]
    · intro h0
      simp [h0]
  · intro hw h0
    have hs : matchedWeight answers ws = 0 :=
      le_antisymm (h0 ▸ matchedWeight_le_possibleWeight answers ws)
        (matchedWeight_nonneg answers hw)
    unfold score_one
    simp only [condSums_eq]
    simp [h0, hs]

/-- Witness for C6: the empty profile has zero total possible weight and
scores 0 without a fault. -/
theorem score_never_division_fault_witness :
    score_one (fun _ => false) ([] : List (SymptomId × ℚ)) = 0 :=
  (score_never_division_fault (fun _ => false) []).2 (by simp)
    (by with_unfolding_all decide)

/-- C9: `score_conditions` emits one entry per condition in
knowledge-base insertion order, and the sort used by the ranker is
stable, so two conditions with equal percentages stay in knowledge-base
order in the ranking: the ranking is a deterministic function of the
answers with ties broken by definition order. -/
theorem ranking_tie_break :
    (∀ answers : SymptomAnswers,
      (score_conditions answers).map Prod.fst = conditions_kb.map Prod.fst) ∧
    ∀ (perc : List (String × ℚ)) (n1 n2 : String) (q : ℚ),
      List.Sublist [(n1, q), (n2, q)] perc →
      List.Sublist [(n1, q), (n2, q)] (ranked_pairs perc) := by
  refine ⟨score_conditions_keys, ?_⟩
  intro perc n1 n2 q h
  have hab : descPerc (n1, q) (n2, q) := le_refl q
  exact List.pair_sublist_insertionSort hab h

set_option maxRecDepth 4000 in
/-- Witness for C9: under all-false answers, Common Cold and Influenza
both score 0 and appear in knowledge-base order in the sorted ranking. -/
theorem ranking_tie_break_witness :
    List.Sublist [("Common Cold", (0 : ℚ)), ("Influenza (Flu)", (0 : ℚ))]
      (ranked_pairs (score_conditions fun _ => false)) :=
  ranking_tie_break.2 (score_conditions fun _ => false) "Common Cold"
    "Influenza (Flu)" 0 (by with_unfolding_all decide)

/-- C10: a negative `topN` follows Python slice semantics: with `n`
percentage entries and `-n ≤ topN < 0`, `explain_top` succeeds and
returns the first `n + topN` entries of the full descending ranking. -/
theorem explain_top_negative_topn (perc : List (String × ℚ)) (topN : Int)
    (hkeys : ∀ p ∈ perc, p.1 ∈ conditions_kb.map Prod.fst)
    (hlow : -(perc.length : Int) ≤ topN) (hneg : topN < 0) :
    ∃ blocksAll blocks,
      explain_top perc (perc.length : Int) = some blocksAll ∧
      explain_top perc topN = some blocks ∧
      blocks = blocksAll.take ((perc.length : Int) + topN).toNat ∧
      (blocks.length : Int) = (perc.length : Int) + topN := by
  refine ⟨(listSlice (ranked_pairs perc) (perc.length : Int)).map attachInfo,
    (listSlice (ranked_pairs perc) topN).map attachInfo,
    explain_top_eq_of_keys hkeys, explain_top_eq_of_keys hkeys, ?_, ?_⟩
  · rw [listSlice_of_nonneg (Int.natCast_nonneg perc.length),
      listSlice_of_neg hneg, ranked_pairs_length, Int.toNat_natCast,
      ← ranked_pairs_length perc, List.take_length, ← List.map_take]
  · rw [List.length_map, listSlice_of_neg hneg, List.length_take,
      ranked_pairs_length]
    omega

/-- Witness for C10: with the 15 scores of the all-false answers and
`topN = -1`, the ranking keeps the first 14 entries. -/
theorem explain_top_negative_topn_witness :
    ∃ blocksAll blocks,
      explain_top (score_conditions fun _ => false) 15 = some blocksAll ∧
      explain_top (score_conditions fun _ => false) (-1) = some blocks ∧
      blocks = blocksAll.take 14 ∧
      (blocks.length : Int) = 14 :=
  explain_top_negative_topn (score_conditions fun _ => false) (-1)
    (by with_unfolding_all decide) (by with_unfolding_all decide) (by decide)

end Diagnosis
